import Mathlib

/-!
Verification of the sftpgo request-handling core: a shallow embedding of
`internal/sftpd/handler.go` and `internal/vfs/folder.go`.

Pure computations (open-flag translation, the resume/truncate decision, the
StatVFS synthesis, folder copying) are translated directly from the Go source.
External collaborators that live outside these two files (the base connection's
permission and quota checks, the data provider, the backend filesystem
operations, pre-action hooks) are modelled as parameters gathered in an `Env`
structure and in a capability record `Fs`, exactly as the handlers consume
them.  Each handler returns its result together with a trace of the observable
calls it performed, in program order, so that ordering and "no backend call"
properties can be stated.
-/

namespace Sftpgo

/-- SFTP protocol-level errors plus the internal error classes the handlers
produce.  `fsError` stands for any backend error wrapped by `GetFsError`;
`okSentinel` is `sftp.ErrSSHFxOk`, the explicit success sentinel. -/
inductive SftpError where
  | permissionDenied
  | noSuchFile
  | opUnsupported
  | failure
  | okSentinel
  | quotaExceeded
  | readQuotaExceeded
  | fsError
deriving DecidableEq, Repr

/-- `sdk.DenyPolicy`: how a failed allow/deny file-pattern match is reported. -/
inductive DenyPolicy where
  | default
  | hide
deriving DecidableEq, Repr

/-- Permission kinds consulted by the handlers (`dataprovider.Perm...`). -/
inductive Perm where
  | download
  | upload
  | overwrite
  | listItems
deriving DecidableEq, Repr

/-- `sftp.FileOpenFlags`, the caller's protocol open flags. -/
structure FileOpenFlags where
  Read : Bool
  Write : Bool
  Append : Bool
  Creat : Bool
  Trunc : Bool
  Excl : Bool
deriving DecidableEq, Repr

/-- Linux `os` package open-flag constants used by `getOSOpenFlags`. -/
def O_WRONLY : Nat := 1

def O_RDWR : Nat := 2

def O_CREATE : Nat := 64

def O_EXCL : Nat := 128

def O_TRUNC : Nat := 512

/-- `getOSOpenFlags` from handler.go: translates protocol open flags into
OS-style flag bits.  The `Append` flag is deliberately ignored (the Go code
comments it out because WriteAt cannot work with `os.O_APPEND`). -/
def getOSOpenFlags (requestFlags : FileOpenFlags) : Nat :=
  let osFlags : Nat := 0
  let osFlags :=
    if requestFlags.Read && requestFlags.Write then osFlags ||| O_RDWR
    else if requestFlags.Write then osFlags ||| O_WRONLY
    else osFlags
  let osFlags := if requestFlags.Creat then osFlags ||| O_CREATE else osFlags
  let osFlags := if requestFlags.Trunc then osFlags ||| O_TRUNC else osFlags
  let osFlags := if requestFlags.Excl then osFlags ||| O_EXCL else osFlags
  osFlags

/-- Go `path.Dir` for the cleaned absolute paths the handlers receive: drop
the final path element; the parent of a top-level name is the root. -/
def pathDir (p : String) : String :=
  let joined := String.intercalate "/" (p.splitOn "/").dropLast
  if p.startsWith "/" then (if joined = "" then "/" else joined)
  else (if joined = "" then "." else joined)

/-- Go `path.Join` for a clean directory and a simple file name, as used by
`StatVFS` to build the probe path `path.Join(r.Filepath, "fakefile.txt")`. -/
def pathJoin (a b : String) : String :=
  if a.endsWith "/" then a ++ b else a ++ "/" ++ b

/-- `vfs.QuotaCheckResult` (the fields the handlers consume). -/
structure QuotaCheckResult where
  HasSpace : Bool
  QuotaSize : Int
  QuotaFiles : Int
  UsedSize : Int
  UsedFiles : Int
deriving DecidableEq, Repr

/-- The transfer-quota decision surface consumed by the handlers
(`common.TransferQuota.HasUploadSpace` / `HasDownloadSpace`). -/
structure TransferQuota where
  hasUploadSpace : Bool
  hasDownloadSpace : Bool
deriving DecidableEq, Repr

/-- Result of a backend `Lstat`/`Stat` call. -/
structure FileInfo where
  name : String
  isDir : Bool
  isSymlink : Bool
  size : Int
deriving DecidableEq, Repr

/-- Outcome of `fs.Lstat`: success, a not-exist error (`fs.IsNotExist`), or
any other stat error. -/
inductive LstatResult where
  | found (info : FileInfo)
  | notExist
  | otherError
deriving Repr

/-- `sftp.StatVFS` response fields (all uint64 on the wire, kept as `Nat`
with explicit wrap-around where the Go code converts). -/
structure StatVFSResult where
  Bsize : Nat
  Frsize : Nat
  Blocks : Nat
  Bfree : Nat
  Bavail : Nat
  Files : Nat
  Ffree : Nat
  Favail : Nat
  Namemax : Nat
deriving DecidableEq, Repr

/-- `sftp.StatVFS.TotalSpace`: `Frsize * Blocks` as uint64 multiplication. -/
def StatVFSResult.totalSpace (s : StatVFSResult) : Nat :=
  (s.Frsize * s.Blocks) % 2 ^ 64

/-- Outcome of `fs.GetAvailableDiskSize`: real statistics, the sentinel
`vfs.ErrStorageSizeUnavailable`, or any other error. -/
inductive DiskSizeResult where
  | ok (s : StatVFSResult)
  | unavailable
  | err
deriving Repr

/-- Go conversion `uint64(x)` of an int64 value. -/
def u64ofInt (x : Int) : Nat := (x % (2 ^ 64 : Int)).toNat

/-- Go conversion `int64(n)` (or `int(n)` on 64-bit) of a uint64 value. -/
def i64ofU64 (n : Nat) : Int :=
  if n < 2 ^ 63 then (n : Int) else (n : Int) - 2 ^ 64

/-- The backend filesystem capability record: the capability probes and the
operations the two handler files invoke.  Fallible operations whose failure
the handlers only propagate are modelled by their success/failure outcome. -/
structure Fs where
  /-- `vfs.HasOpenRWSupport fs`: simultaneous read+write (plain local only). -/
  hasOpenRWSupport : Bool
  /-- `fs.IsUploadResumeSupported()`: native upload resume. -/
  isUploadResumeSupported : Bool
  /-- `vfs.IsUploadResumeSupported(fs, size)`: native or size-conditional
  resume support, as consulted for the max-write-size computation. -/
  isUploadResumeSupportedFor : Int → Bool
  /-- `vfs.HasTruncateSupport fs`: native truncate-on-open. -/
  hasTruncateSupport : Bool
  /-- `fs.IsAtomicUploadSupported()`. -/
  isAtomicUploadSupported : Bool
  /-- `fs.GetAtomicUploadPath p`: the staging path for atomic uploads. -/
  getAtomicUploadPath : String → String
  /-- `fs.Lstat p`. -/
  lstat : String → LstatResult
  /-- whether `fs.Create(filePath, osFlags, checks)` succeeds, given the
  OS-style flags. -/
  create : Nat → Bool
  /-- whether `fs.Open(p, 0)` succeeds. -/
  openForRead : Bool
  /-- whether `fs.Rename(source, target)` succeeds. -/
  rename : Bool
  /-- `fs.Readlink p`: the link target or an error. -/
  readlink : String → Except Unit String
  /-- `fs.GetAvailableDiskSize p`. -/
  getAvailableDiskSize : String → DiskSizeResult
  /-- the `vfs.FsRealPather` capability, when implemented. -/
  realPath : Option (String → Except Unit String)

/-- A `VirtualFolder` as consumed by the truncation quota reconciliation:
its name plus the per-association quota sentinels from
`internal/vfs/folder.go` (0 = unlimited, -1 = included in user quota). -/
structure VirtualFolder where
  name : String
  QuotaSize : Int
  QuotaFiles : Int
deriving DecidableEq, Repr

/-- `VirtualFolder.IsIncludedInUserQuota` from folder.go:
`v.QuotaFiles == -1 && v.QuotaSize == -1`. -/
def VirtualFolder.IsIncludedInUserQuota (v : VirtualFolder) : Bool :=
  v.QuotaFiles == -1 && v.QuotaSize == -1

/-- `VirtualFolder.HasNoQuotaRestrictions` from folder.go. -/
def VirtualFolder.HasNoQuotaRestrictions (v : VirtualFolder) (checkFiles : Bool) : Bool :=
  if v.QuotaSize == 0 && (!checkFiles || v.QuotaFiles == 0) then true else false

/-- The deferred read-error values a write-open can attach to a transfer:
`sftp.ErrSSHFxOpUnsupported` or `os.ErrPermission`. -/
inductive ReadErr where
  | opUnsupported
  | permission
deriving DecidableEq, Repr

/-- Transfer direction. -/
inductive Direction where
  | upload
  | download
deriving DecidableEq, Repr

/-- The transfer handle produced by `common.NewBaseTransfer`/`newTransfer`:
the bookkeeping fields the claims are about. -/
structure Transfer where
  direction : Direction
  fsPath : String
  effectivePath : String
  requestPath : String
  minWriteOffset : Int
  initialSize : Int
  maxWriteSize : Int
  truncatedSize : Int
  isNewFile : Bool
  errForRead : Option ReadErr
deriving DecidableEq, Repr

/-- Kind tag for the pre-action hook. -/
inductive PreActionKind where
  | preDownload
  | preUpload
deriving DecidableEq, Repr

/-- File-command methods dispatched by `Filecmd`. -/
inductive CmdMethod where
  | Setstat
  | Rename
  | Rmdir
  | Mkdir
  | Symlink
  | Remove
  | other
deriving DecidableEq, Repr

/-- File-list methods dispatched by `Filelist`. -/
inductive ListMethod where
  | List
  | Stat
  | other
deriving DecidableEq, Repr

/-- Observable calls a handler performs, recorded in program order. -/
inductive Event where
  | updateLastActivity
  | permCheck
  | fileAllowedCheck
  | quotaCheck (isNewFile : Bool)
  | transferQuotaCheck
  | resolvePath
  | preAction
  | fsOpen
  | fsCreate
  | fsLstat
  | fsRename
  | fsReadlink
  | fsRealPath
  | fsGetAvailableDiskSize
  | fsListDir
  | setPathPerms
  | doStat
  | setStat
  | connRename
  | removeDir
  | createDir
  | createSymlink
  | removeFile
  | updateVFolderQuota (name : String) (files : Int) (size : Int)
  | updateUserQuota (files : Int) (size : Int)
deriving DecidableEq, Repr

/-- Backend filesystem calls, for "no backend call occurred" statements. -/
def Event.isBackendCall : Event → Bool
  | .fsOpen | .fsCreate | .fsLstat | .fsRename | .fsReadlink | .fsRealPath
  | .fsGetAvailableDiskSize | .fsListDir | .setPathPerms => true
  | _ => false

/-- Quota-update calls issued to the data provider. -/
def Event.isQuotaUpdate : Event → Bool
  | .updateVFolderQuota _ _ _ => true
  | .updateUserQuota _ _ => true
  | _ => false

/-- The external collaborators of the handlers, gathered per connection:
the base connection's authorization/quota/path surface, the pre-action hook,
the data-provider quota updates and the session-scoped configuration.  All
of these live outside the two embedded source files. -/
structure Env where
  /-- `c.User.HasPerm perm dir`. -/
  hasPerm : Perm → String → Bool
  /-- `c.User.IsFileAllowed path`: (allowed, deny policy). -/
  isFileAllowed : String → Bool × DenyPolicy
  /-- `c.GetTransferQuota()`. -/
  getTransferQuota : TransferQuota
  /-- `c.HasSpace checkFiles getUsage path` returning the disk-quota and
  transfer-quota results. -/
  hasSpace : Bool → Bool → String → QuotaCheckResult × TransferQuota
  /-- `c.GetFsAndResolvedPath path`. -/
  resolveFsPath : String → Except SftpError (Fs × String)
  /-- `common.Config.IsAtomicUploadEnabled()`. -/
  atomicUploadEnabled : Bool
  /-- `common.ExecutePreAction` outcome per hook kind: `true` = no veto. -/
  preActionOk : PreActionKind → Bool
  /-- `c.GetMaxWriteSize quotaResult isResume fileSize resumeSupported`:
  the computed ceiling together with an optional error. -/
  getMaxWriteSize : QuotaCheckResult → Bool → Int → Bool → Int × Option SftpError
  /-- `c.User.GetVirtualFolderForPath dir`: the covering virtual folder. -/
  getVirtualFolderForPath : String → Option VirtualFolder
  /-- the session's folder-scope prefix (`c.folderPrefix`). -/
  folderPrefix : String
  /-- `c.User.Filters.StartDirectory`. -/
  startDirectory : String
  /-- `util.CleanPath`. -/
  cleanPath : String → String
  /-- `util.CleanPathWithBase`. -/
  cleanPathWithBase : String → String → String
  /-- `c.ListDir path`. -/
  listDir : String → Except SftpError (List FileInfo)
  /-- `c.DoStat path mode checkPolicy`. -/
  doStat : String → Except SftpError FileInfo
  /-- `c.SetStat path attrs` (the attribute translation feeds this external
  call; its flag bits are irrelevant to the traced behavior). -/
  setStat : Option SftpError
  /-- `c.Rename source target`. -/
  connRename : Option SftpError
  /-- `c.RemoveDir path`. -/
  removeDir : Option SftpError
  /-- `c.CreateDir path true`. -/
  createDir : Option SftpError
  /-- `c.CreateSymlink source target`. -/
  createSymlink : Option SftpError
  /-- `c.RemoveFile fs path virtualPath info`. -/
  removeFile : Option SftpError

/-- An inbound write/read open request: the virtual path and open flags. -/
structure Request where
  Filepath : String
  pflags : FileOpenFlags
deriving Repr

/-- Modelled from the spec: `GetErrorForDeniedFile` lives in the external
`common` package; per §4.1 a deny with the "hide" policy must surface as a
not-found error, any other deny as a permission error. -/
def GetErrorForDeniedFile (policy : DenyPolicy) : SftpError :=
  match policy with
  | .hide => .noSuchFile
  | .default => .permissionDenied

/-- `updateQuotaAfterTruncate` from handler.go, as the list of data-provider
quota updates it issues: the covering virtual folder (if any) is debited by
the negated file size, the user additionally when the folder is included in
the user quota, and the user alone when no virtual folder covers the path. -/
def updateQuotaAfterTruncate (env : Env) (requestPath : String) (fileSize : Int) :
    List Event :=
  match env.getVirtualFolderForPath (pathDir requestPath) with
  | some vfolder =>
      Event.updateVFolderQuota vfolder.name 0 (-fileSize) ::
        (if vfolder.IsIncludedInUserQuota then [Event.updateUserQuota 0 (-fileSize)] else [])
  | none => [Event.updateUserQuota 0 (-fileSize)]

/-- `handleSFTPUploadToNewFile` from handler.go: quota gate (isNewFile=true),
pre-upload hook, backend create, ownership hints, max-write-size (whose error
is ignored on this path), then the bound upload transfer. -/
def handleSFTPUploadToNewFile (env : Env) (fs : Fs) (pflags : FileOpenFlags)
    (resolvedPath filePath requestPath : String) (errForRead : Option ReadErr) :
    Except SftpError Transfer × List Event :=
  let dq := env.hasSpace true false requestPath
  let diskQuota := dq.1
  let transferQuota := dq.2
  let ev0 := [Event.quotaCheck true]
  if !diskQuota.HasSpace || !transferQuota.hasUploadSpace then
    (.error .quotaExceeded, ev0)
  else
    let ev1 := ev0 ++ [Event.preAction]
    if !env.preActionOk .preUpload then (.error .permissionDenied, ev1)
    else
      let osFlags := getOSOpenFlags pflags
      let ev2 := ev1 ++ [Event.fsCreate]
      if !fs.create osFlags then (.error .fsError, ev2)
      else
        let ev3 := ev2 ++ [Event.setPathPerms]
        -- we can get an error only for resume; it is discarded here
        let maxWriteSize := (env.getMaxWriteSize diskQuota false 0 fs.isUploadResumeSupported).1
        (.ok { direction := .upload, fsPath := resolvedPath, effectivePath := filePath,
               requestPath := requestPath, minWriteOffset := 0, initialSize := 0,
               maxWriteSize := maxWriteSize, truncatedSize := 0, isNewFile := true,
               errForRead := errForRead }, ev3)

/-- `handleSFTPUploadToExistingFile` from handler.go: quota gate
(isNewFile=false), the resume/truncate decision from the open flags
(absence of the truncate flag means resume), max-write-size, pre-upload hook,
atomic-upload staging rename, backend create, then the offset/initial-size/
truncated-size bookkeeping and the truncation quota reconciliation. -/
def handleSFTPUploadToExistingFile (env : Env) (fs : Fs) (pflags : FileOpenFlags)
    (resolvedPath filePath : String) (fileSize : Int) (requestPath : String)
    (errForRead : Option ReadErr) : Except SftpError Transfer × List Event :=
  let dq := env.hasSpace false false requestPath
  let diskQuota := dq.1
  let transferQuota := dq.2
  let ev0 := [Event.quotaCheck false]
  if !diskQuota.HasSpace || !transferQuota.hasUploadSpace then
    (.error .quotaExceeded, ev0)
  else
    let osFlags := getOSOpenFlags pflags
    let minWriteOffset : Int := 0
    let isTruncate := osFlags &&& O_TRUNC != 0
    -- for upload resumes OpenSSH sets the APPEND flag while WinSCP does not
    -- set it, so this is treated as an upload resume if TRUNCATE is not set
    let isResume := !isTruncate
    let mws := env.getMaxWriteSize diskQuota isResume fileSize
      (fs.isUploadResumeSupportedFor fileSize)
    match mws.2 with
    | some e => (.error e, ev0)
    | none =>
      let maxWriteSize := mws.1
      let ev1 := ev0 ++ [Event.preAction]
      if !env.preActionOk .preUpload then (.error .permissionDenied, ev1)
      else
        let atomic := env.atomicUploadEnabled && fs.isAtomicUploadSupported
        let ev2 := if atomic then ev1 ++ [Event.fsRename] else ev1
        if atomic && !fs.rename then (.error .fsError, ev2)
        else
          let ev3 := ev2 ++ [Event.fsCreate]
          if !fs.create osFlags then (.error .fsError, ev3)
          else
            if isResume then
              let minWriteOffset :=
                -- enforce min write offset only if the client passed the
                -- APPEND flag or the filesystem supports emulated resume
                if pflags.Append || !fs.isUploadResumeSupported then fileSize
                else minWriteOffset
              (.ok { direction := .upload, fsPath := resolvedPath,
                     effectivePath := filePath, requestPath := requestPath,
                     minWriteOffset := minWriteOffset, initialSize := fileSize,
                     maxWriteSize := maxWriteSize, truncatedSize := 0,
                     isNewFile := false, errForRead := errForRead },
               ev3 ++ [Event.setPathPerms])
            else
              if isTruncate && fs.hasTruncateSupport then
                let qev := updateQuotaAfterTruncate env requestPath fileSize
                (.ok { direction := .upload, fsPath := resolvedPath,
                       effectivePath := filePath, requestPath := requestPath,
                       minWriteOffset := minWriteOffset, initialSize := 0,
                       maxWriteSize := maxWriteSize, truncatedSize := 0,
                       isNewFile := false, errForRead := errForRead },
                 ev3 ++ qev ++ [Event.setPathPerms])
              else
                (.ok { direction := .upload, fsPath := resolvedPath,
                       effectivePath := filePath, requestPath := requestPath,
                       minWriteOffset := minWriteOffset, initialSize := fileSize,
                       maxWriteSize := maxWriteSize, truncatedSize := fileSize,
                       isNewFile := false, errForRead := errForRead },
                 ev3 ++ [Event.setPathPerms])

/-- Prepends `c.UpdateLastActivity()`, the first statement of every
dispatcher method that performs it, to a handler body's trace. -/
def withActivity {α : Type} (p : α × List Event) : α × List Event :=
  (p.1, Event.updateLastActivity :: p.2)

/-- Body of `Fileread` from handler.go, after the activity update: download
permission on the parent, download transfer budget, the allow/deny policy
(hide ⇒ not-found via `GetErrorForDeniedFile`), path resolution, the
pre-download hook, the backend open, then the bound download transfer. -/
def FilereadBody (env : Env) (request : Request) :
    Except SftpError Transfer × List Event :=
  let ev0 := [Event.permCheck]
  if !env.hasPerm .download (pathDir request.Filepath) then
    (.error .permissionDenied, ev0)
  else
    let transferQuota := env.getTransferQuota
    let ev1 := ev0 ++ [Event.transferQuotaCheck]
    if !transferQuota.hasDownloadSpace then (.error .readQuotaExceeded, ev1)
    else
      let al := env.isFileAllowed request.Filepath
      let ev2 := ev1 ++ [Event.fileAllowedCheck]
      if !al.1 then (.error (GetErrorForDeniedFile al.2), ev2)
      else
        match env.resolveFsPath request.Filepath with
        | .error e => (.error e, ev2 ++ [Event.resolvePath])
        | .ok (fs, p) =>
          let ev3 := ev2 ++ [Event.resolvePath, Event.preAction]
          if !env.preActionOk .preDownload then (.error .permissionDenied, ev3)
          else
            let ev4 := ev3 ++ [Event.fsOpen]
            if !fs.openForRead then (.error .fsError, ev4)
            else
              (.ok { direction := .download, fsPath := p, effectivePath := p,
                     requestPath := request.Filepath, minWriteOffset := 0,
                     initialSize := 0, maxWriteSize := 0, truncatedSize := 0,
                     isNewFile := false, errForRead := none }, ev4)

/-- `Fileread` from handler.go: activity update, then the body. -/
def Fileread (env : Env) (request : Request) :
    Except SftpError Transfer × List Event :=
  withActivity (FilereadBody env request)

/-- The deferred read-error computation of `handleFilewrite`: an
unsupported-operation error when read access is requested on a backend
without simultaneous read-write support, unconditionally overwritten by a
permission error when download permission on the parent is missing. -/
def computeErrForRead (fs : Fs) (pflagsRead hasDownloadPerm : Bool) :
    Option ReadErr :=
  let errForRead := if !fs.hasOpenRWSupport && pflagsRead
    then some ReadErr.opUnsupported else none
  if !hasDownloadPerm then some ReadErr.permission else errForRead

/-- Body of `handleFilewrite` from handler.go, after the activity update:
allow/deny policy (any deny ⇒ permission error), path resolution, atomic
staging path, the deferred read error, the lstat-driven branch into
create-new (not-found or symlink target), error, directory (unsupported) or
overwrite-existing, each guarded by the respective parent permission. -/
def handleFilewriteBody (env : Env) (request : Request) :
    Except SftpError Transfer × List Event :=
  let ev0 := [Event.fileAllowedCheck]
  if !(env.isFileAllowed request.Filepath).1 then
    (.error .permissionDenied, ev0)
  else
    match env.resolveFsPath request.Filepath with
    | .error e => (.error e, ev0 ++ [Event.resolvePath])
    | .ok (fs, p) =>
      let ev1 := ev0 ++ [Event.resolvePath]
      let filePath := if env.atomicUploadEnabled && fs.isAtomicUploadSupported
        then fs.getAtomicUploadPath p else p
      let errForRead := computeErrForRead fs request.pflags.Read
        (env.hasPerm .download (pathDir request.Filepath))
      let ev2 := ev1 ++ [Event.fsLstat]
      match fs.lstat p with
      | .found stat =>
        if stat.isSymlink then
          let ev3 := ev2 ++ [Event.permCheck]
          if !env.hasPerm .upload (pathDir request.Filepath) then
            (.error .permissionDenied, ev3)
          else
            let r := handleSFTPUploadToNewFile env fs request.pflags p filePath
              request.Filepath errForRead
            (r.1, ev3 ++ r.2)
        else if stat.isDir then (.error .opUnsupported, ev2)
        else
          let ev3 := ev2 ++ [Event.permCheck]
          if !env.hasPerm .overwrite (pathDir request.Filepath) then
            (.error .permissionDenied, ev3)
          else
            let r := handleSFTPUploadToExistingFile env fs request.pflags p
              filePath stat.size request.Filepath errForRead
            (r.1, ev3 ++ r.2)
      | .notExist =>
          let ev3 := ev2 ++ [Event.permCheck]
          if !env.hasPerm .upload (pathDir request.Filepath) then
            (.error .permissionDenied, ev3)
          else
            let r := handleSFTPUploadToNewFile env fs request.pflags p filePath
              request.Filepath errForRead
            (r.1, ev3 ++ r.2)
      | .otherError => (.error .fsError, ev2)

/-- `handleFilewrite` from handler.go (the target of both `Filewrite` and
`OpenFile`): activity update, then the body. -/
def handleFilewrite (env : Env) (request : Request) :
    Except SftpError Transfer × List Event :=
  withActivity (handleFilewriteBody env request)

/-- `canReadLink` from handler.go: list permission on the parent, then the
allow/deny policy where only a deny with the "hide" policy is reported (as
not-found); any other deny passes. -/
def canReadLink (env : Env) (name : String) : Option SftpError × List Event :=
  let ev0 := [Event.permCheck]
  if !env.hasPerm .listItems (pathDir name) then (some .permissionDenied, ev0)
  else
    let al := env.isFileAllowed name
    let ev1 := ev0 ++ [Event.fileAllowedCheck]
    if !al.1 && al.2 == DenyPolicy.hide then (some .noSuchFile, ev1)
    else (none, ev1)

/-- `Readlink` from handler.go: `canReadLink` on the link, path resolution,
the backend readlink, then `canReadLink` again on the resolved target.
Note: the method performs no last-activity update. -/
def Readlink (env : Env) (filePath : String) :
    Except SftpError String × List Event :=
  match canReadLink env filePath with
  | (some e, ev) => (.error e, ev)
  | (none, ev) =>
    match env.resolveFsPath filePath with
    | .error e => (.error e, ev ++ [Event.resolvePath])
    | .ok (fs, p) =>
      let ev1 := ev ++ [Event.resolvePath, Event.fsReadlink]
      match fs.readlink p with
      | .error _ => (.error .fsError, ev1)
      | .ok s =>
        match canReadLink env s with
        | (some e, ev2) => (.error e, ev1 ++ ev2)
        | (none, ev2) => (.ok s, ev1 ++ ev2)

/-- `RealPath` from handler.go: list permission, path normalization against
the root or the configured start directory, path resolution, then the
backend real-path capability when implemented, the normalized logical path
otherwise.  Note: the method performs no last-activity update. -/
def RealPath (env : Env) (p : String) : Except SftpError String × List Event :=
  let ev0 := [Event.permCheck]
  if !env.hasPerm .listItems (pathDir p) then (.error .permissionDenied, ev0)
  else
    let p := if env.startDirectory == "" then env.cleanPath p
      else env.cleanPathWithBase env.startDirectory p
    match env.resolveFsPath p with
    | .error e => (.error e, ev0 ++ [Event.resolvePath])
    | .ok (fs, fsPath) =>
      let ev1 := ev0 ++ [Event.resolvePath]
      match fs.realPath with
      | some realPather =>
        let ev2 := ev1 ++ [Event.fsRealPath]
        match realPather fsPath with
        | .error _ => (.error .fsError, ev2)
        | .ok realPath => (.ok realPath, ev2)
      | none => (.ok p, ev1)

/-- `vfs.NewFileInfo` as used by `Filelist` for the synthetic entries (the
modification time carried by the Go value plays no role here). -/
def newFileInfo (name : String) (isDir : Bool) (sizeInBytes : Int) : FileInfo :=
  { name := name, isDir := isDir, isSymlink := false, size := sizeInBytes }

/-- `util.PrependFileInfo`: prepends an entry to a listing. -/
def prependFileInfo (files : List FileInfo) (info : FileInfo) : List FileInfo :=
  info :: files

/-- Body of `Filelist` from handler.go: "List" lists the directory and
prepends the synthetic `..` (unless the path is the session root and the
session has no folder-scope prefix) and then the synthetic `.`; "Stat"
requires list permission on the parent and returns a single entry; any
other method is unsupported. -/
def FilelistBody (env : Env) (method : ListMethod) (filepath : String) :
    Except SftpError (List FileInfo) × List Event :=
  match method with
  | .List =>
    let ev0 := [Event.fsListDir]
    match env.listDir filepath with
    | .error e => (.error e, ev0)
    | .ok files =>
      let files := if filepath != "/" || env.folderPrefix != ""
        then prependFileInfo files (newFileInfo ".." true 0) else files
      let files := prependFileInfo files (newFileInfo "." true 0)
      (.ok files, ev0)
  | .Stat =>
    let ev0 := [Event.permCheck]
    if !env.hasPerm .listItems (pathDir filepath) then
      (.error .permissionDenied, ev0)
    else
      let ev1 := ev0 ++ [Event.doStat]
      match env.doStat filepath with
      | .error e => (.error e, ev1)
      | .ok s => (.ok [s], ev1)
  | .other => (.error .opUnsupported, [])

/-- `Filelist` from handler.go: activity update, then the body. -/
def Filelist (env : Env) (method : ListMethod) (filepath : String) :
    Except SftpError (List FileInfo) × List Event :=
  withActivity (FilelistBody env method filepath)

/-- Body of `Lstat` from handler.go: list permission on the parent, then a
single stat entry. -/
def LstatBody (env : Env) (filepath : String) :
    Except SftpError (List FileInfo) × List Event :=
  let ev0 := [Event.permCheck]
  if !env.hasPerm .listItems (pathDir filepath) then
    (.error .permissionDenied, ev0)
  else
    let ev1 := ev0 ++ [Event.doStat]
    match env.doStat filepath with
    | .error e => (.error e, ev1)
    | .ok s => (.ok [s], ev1)

/-- `Lstat` from handler.go: activity update, then the body. -/
def Lstat (env : Env) (filepath : String) :
    Except SftpError (List FileInfo) × List Event :=
  withActivity (LstatBody env filepath)

/-- `handleSFTPRemove` from handler.go: path resolution, backend lstat, the
plain-directory guard (symlinks to directories stay removable), then the
external remove contract. -/
def handleSFTPRemove (env : Env) (filepath : String) :
    Option SftpError × List Event :=
  match env.resolveFsPath filepath with
  | .error e => (some e, [Event.resolvePath])
  | .ok (fs, fsPath) =>
    let ev0 := [Event.resolvePath, Event.fsLstat]
    match fs.lstat fsPath with
    | .found fi =>
      if fi.isDir && !fi.isSymlink then (some .failure, ev0)
      else (env.removeFile, ev0 ++ [Event.removeFile])
    | _ => (some .fsError, ev0)

/-- Body of `Filecmd` from handler.go: dispatch by method name; the
attribute translation of `handleSFTPSetstat` feeds the external `SetStat`
contract.  `Rename`, `Mkdir` and `Symlink` fall through to the
`sftp.ErrSSHFxOk` sentinel on success; unknown methods are unsupported. -/
def FilecmdBody (env : Env) (method : CmdMethod) (filepath : String) :
    Option SftpError × List Event :=
  match method with
  | .Setstat => (env.setStat, [Event.setStat])
  | .Rename =>
    (match env.connRename with
     | some e => (some e, [Event.connRename])
     | none => (some .okSentinel, [Event.connRename]))
  | .Rmdir => (env.removeDir, [Event.removeDir])
  | .Mkdir =>
    (match env.createDir with
     | some e => (some e, [Event.createDir])
     | none => (some .okSentinel, [Event.createDir]))
  | .Symlink =>
    (match env.createSymlink with
     | some e => (some e, [Event.createSymlink])
     | none => (some .okSentinel, [Event.createSymlink]))
  | .Remove => handleSFTPRemove env filepath
  | .other => (some .opUnsupported, [])

/-- `Filecmd` from handler.go: activity update, then the dispatch. -/
def Filecmd (env : Env) (method : CmdMethod) (filepath : String) :
    Option SftpError × List Event :=
  withActivity (FilecmdBody env method filepath)

/-- The block-size loop of `getStatVFSFromQuotaResult`:
`for bsize > uint64(quotaResult.QuotaSize) { bsize /= 4 }`, written with a
structural fuel that the start value 4096 provably never exhausts (seven
divisions by four already reach zero). -/
def bsizeIter : Nat → Nat → Nat → Nat
  | 0, bsize, _ => bsize
  | fuel + 1, bsize, q => if bsize > q then bsizeIter fuel (bsize / 4) q else bsize

/-- The block size computed by `getStatVFSFromQuotaResult` starting at 4096. -/
def computeBsize (q : Nat) : Nat := bsizeIter 7 4096 q

/-- The capping step of `getStatVFSFromQuotaResult` when backend statistics
are available: absent or larger quota ceilings are replaced by the
backend-reported totals (with the Go uint64-to-int64 conversions). -/
def capQuotaByDiskStats (quotaResult : QuotaCheckResult) (s : StatVFSResult) :
    QuotaCheckResult :=
  let qs := if quotaResult.QuotaSize == 0
      || quotaResult.QuotaSize > i64ofU64 s.totalSpace
    then i64ofU64 s.totalSpace else quotaResult.QuotaSize
  let qf := if quotaResult.QuotaFiles == 0
      || quotaResult.QuotaFiles > i64ofU64 s.Files
    then i64ofU64 s.Files else quotaResult.QuotaFiles
  { quotaResult with QuotaSize := qs, QuotaFiles := qf }

/-- The synthesis step of `getStatVFSFromQuotaResult`: substitutes large
defaults (used + 8TB bytes, used + one million files) for absent ceilings,
derives block counts at the computed block size, and forces the free
counters to zero when the quota check reported no remaining space. -/
def synthesizeStatVFS (quotaResult : QuotaCheckResult) : StatVFSResult :=
  -- if quota size or quota files are unavailable, arbitrary values are used
  let quotaResult := if quotaResult.QuotaSize == 0
    then { quotaResult with
           QuotaSize := quotaResult.UsedSize + 8 * 1024 * 1024 * 1024 * 1024 }
    else quotaResult
  let quotaResult := if quotaResult.QuotaFiles == 0
    then { quotaResult with QuotaFiles := quotaResult.UsedFiles + 1000000 }
    else quotaResult
  let bsize := computeBsize (u64ofInt quotaResult.QuotaSize)
  let blocks := u64ofInt quotaResult.QuotaSize / bsize
  let bfree := u64ofInt (quotaResult.QuotaSize - quotaResult.UsedSize) / bsize
  let files := u64ofInt quotaResult.QuotaFiles
  let ffree := u64ofInt (quotaResult.QuotaFiles - quotaResult.UsedFiles)
  let bfree := if !quotaResult.HasSpace then 0 else bfree
  let ffree := if !quotaResult.HasSpace then 0 else ffree
  { Bsize := bsize, Frsize := bsize, Blocks := blocks, Bfree := bfree,
    Bavail := bfree, Files := files, Ffree := ffree, Favail := ffree,
    Namemax := 255 }

/-- `getStatVFSFromQuotaResult` from handler.go: asks the backend for its
statistics (a non-sentinel failure is propagated), caps the quota ceilings
by the backend-reported totals when available, then synthesizes the
response. -/
def getStatVFSFromQuotaResult (fs : Fs) (name : String)
    (quotaResult : QuotaCheckResult) :
    Except SftpError StatVFSResult × List Event :=
  let ev0 := [Event.fsGetAvailableDiskSize]
  match fs.getAvailableDiskSize name with
  | .err => (.error .fsError, ev0)
  | .ok s => (.ok (synthesizeStatVFS (capQuotaByDiskStats quotaResult s)), ev0)
  | .unavailable => (.ok (synthesizeStatVFS quotaResult), ev0)

/-- Body of `StatVFS` from handler.go, after the activity update: a quota
check against a probe file inside the requested directory, path resolution,
then either the quota-derived synthesis (no remaining space, or some limit
configured, or backend statistics unavailable) or the backend statistics
returned unchanged (no quota restriction and real statistics available). -/
def StatVFSBody (env : Env) (filepath : String) :
    Except SftpError StatVFSResult × List Event :=
  let quotaResult := (env.hasSpace true true (pathJoin filepath "fakefile.txt")).1
  let ev0 := [Event.quotaCheck true]
  match env.resolveFsPath filepath with
  | .error e => (.error e, ev0 ++ [Event.resolvePath])
  | .ok (fs, p) =>
    let ev1 := ev0 ++ [Event.resolvePath]
    if !quotaResult.HasSpace then
      let r := getStatVFSFromQuotaResult fs p quotaResult
      (r.1, ev1 ++ r.2)
    else if quotaResult.QuotaSize == 0 && quotaResult.QuotaFiles == 0 then
      -- no quota restrictions
      let ev2 := ev1 ++ [Event.fsGetAvailableDiskSize]
      match fs.getAvailableDiskSize p with
      | .unavailable =>
        let r := getStatVFSFromQuotaResult fs p quotaResult
        (r.1, ev2 ++ r.2)
      | .ok s => (.ok s, ev2)
      | .err => (.error .fsError, ev2)
    else
      -- there is free space but some limits are configured
      let r := getStatVFSFromQuotaResult fs p quotaResult
      (r.1, ev1 ++ r.2)

/-- `StatVFS` from handler.go: activity update, then the body. -/
def StatVFS (env : Env) (filepath : String) :
    Except SftpError StatVFSResult × List Event :=
  withActivity (StatVFSBody env filepath)

/-! ### `internal/vfs/folder.go`: `BaseVirtualFolder.GetACopy`

Go slices are references into backing arrays, so slice aliasing is made
explicit: a `SliceRef` is an index into a heap of string arrays plus the
slice length, and `GetACopy` is modelled as a heap transformer exactly
following the source's allocations and assignments. -/

/-- A Go string-slice value: backing-array id and length. -/
structure SliceRef where
  arr : Nat
  len : Nat
deriving DecidableEq, Repr

/-- A heap of string backing arrays; the id of an array is its index. -/
structure Heap where
  arrays : List (List String)
deriving DecidableEq, Repr

/-- Allocates a fresh backing array holding the given contents, returning
the new heap and the id (`make` followed by `copy` in Go). -/
def Heap.alloc (h : Heap) (contents : List String) : Heap × Nat :=
  ({ arrays := h.arrays ++ [contents] }, h.arrays.length)

/-- Reads the elements a slice designates. -/
def Heap.read (h : Heap) (r : SliceRef) : List String :=
  (h.arrays.getD r.arr []).take r.len

/-- Writes one element through a slice (`s[i] = v` in Go): mutates the
backing array in place, observable through every alias. -/
def Heap.write (h : Heap) (r : SliceRef) (i : Nat) (v : String) : Heap :=
  { arrays := h.arrays.set r.arr ((h.arrays.getD r.arr []).set i v) }

/-- `BaseVirtualFolder` from folder.go with reference-valued slice fields.
The backend configuration is copied through the external
`Filesystem.GetACopy`, modelled as an opaque value field. -/
structure BaseVirtualFolder where
  ID : Int
  Name : String
  MappedPath : String
  Description : String
  UsedQuotaSize : Int
  UsedQuotaFiles : Int
  LastQuotaUpdate : Int
  Users : SliceRef
  Groups : SliceRef
  FsConfig : Int
deriving DecidableEq, Repr

/-- `BaseVirtualFolder.GetACopy` from folder.go, line by line: fresh arrays
`users` and `groups` are allocated and filled from the originals, then the
result struct is built -- with `Users` set to the fresh `users` array but
`Groups` set to `v.Groups`, the original slice, leaving the freshly made
`groups` array unused. -/
def BaseVirtualFolder.GetACopy (h : Heap) (v : BaseVirtualFolder) :
    Heap × BaseVirtualFolder :=
  let users := h.alloc (h.read v.Users)
  let h1 := users.1
  let groups := h1.alloc (h1.read v.Groups)
  let h2 := groups.1
  (h2,
   { ID := v.ID, Name := v.Name, Description := v.Description,
     MappedPath := v.MappedPath, UsedQuotaSize := v.UsedQuotaSize,
     UsedQuotaFiles := v.UsedQuotaFiles, LastQuotaUpdate := v.LastQuotaUpdate,
     Users := { arr := users.2, len := v.Users.len },
     Groups := v.Groups,
     FsConfig := v.FsConfig })

/-! ### Concrete environments and inputs for witnesses and counterexamples -/

/-- A backend with every capability and every operation succeeding; not
supporting native upload resume. -/
def fsPlain : Fs :=
  { hasOpenRWSupport := true
    isUploadResumeSupported := false
    isUploadResumeSupportedFor := fun _ => true
    hasTruncateSupport := true
    isAtomicUploadSupported := false
    getAtomicUploadPath := fun p => p ++ ".tmp"
    lstat := fun _ => .found { name := "f.txt", isDir := false,
                               isSymlink := false, size := 500 }
    create := fun _ => true
    openForRead := true
    rename := true
    readlink := fun _ => .ok "/target.txt"
    getAvailableDiskSize := fun _ => .unavailable
    realPath := none }

/-- A permissive quota result with no restrictions configured. -/
def quotaFree : QuotaCheckResult :=
  { HasSpace := true, QuotaSize := 0, QuotaFiles := 0, UsedSize := 0,
    UsedFiles := 0 }

/-- A base environment where every permission is granted, every policy
allows, every quota has space and every external call succeeds. -/
def envBase : Env :=
  { hasPerm := fun _ _ => true
    isFileAllowed := fun _ => (true, .default)
    getTransferQuota := { hasUploadSpace := true, hasDownloadSpace := true }
    hasSpace := fun _ _ _ =>
      (quotaFree, { hasUploadSpace := true, hasDownloadSpace := true })
    resolveFsPath := fun p => .ok (fsPlain, "/home/user" ++ p)
    atomicUploadEnabled := false
    preActionOk := fun _ => true
    getMaxWriteSize := fun _ _ _ _ => (1000000, none)
    getVirtualFolderForPath := fun _ => none
    folderPrefix := ""
    startDirectory := ""
    cleanPath := fun p => p
    cleanPathWithBase := fun _ p => p
    listDir := fun _ => .ok []
    doStat := fun _ => .ok { name := "f.txt", isDir := false,
                             isSymlink := false, size := 1 }
    setStat := none
    connRename := none
    removeDir := none
    createDir := none
    createSymlink := none
    removeFile := none }

/-- Open flags of an OpenSSH-style upload resume: append set, truncate
unset. -/
def pflagsAppendNoTrunc : FileOpenFlags :=
  { Read := false, Write := true, Append := true, Creat := true,
    Trunc := false, Excl := false }

/-- Open flags of a truncating overwrite. -/
def pflagsTrunc : FileOpenFlags :=
  { Read := false, Write := true, Append := false, Creat := true,
    Trunc := true, Excl := false }

/-- The transfer produced by resuming a 500-byte file on `envBase` /
`fsPlain` with append set. -/
def trResume500 : Transfer :=
  { direction := .upload, fsPath := "/home/user/f.txt",
    effectivePath := "/home/user/f.txt", requestPath := "/f.txt",
    minWriteOffset := 500, initialSize := 500, maxWriteSize := 1000000,
    truncatedSize := 0, isNewFile := false, errForRead := none }

/-- An environment whose disk-quota check reports no remaining space. -/
def envNoSpace : Env :=
  { envBase with
    hasSpace := fun _ _ _ =>
      ({ HasSpace := false, QuotaSize := 100, QuotaFiles := 10,
         UsedSize := 100, UsedFiles := 10 },
       { hasUploadSpace := true, hasDownloadSpace := true }) }

/-- An environment whose allow/deny policy denies every path with the
"hide" policy. -/
def envDenyHide : Env :=
  { envBase with isFileAllowed := fun _ => (false, .hide) }

/-- An environment whose allow/deny policy denies every path with the
default (non-hide) policy. -/
def envDenyDefault : Env :=
  { envBase with isFileAllowed := fun _ => (false, .default) }

/-- An environment granting every permission except download. -/
def envNoDownloadPerm : Env :=
  { envBase with hasPerm := fun perm _ => !(perm == Perm.download) }

/-- A virtual folder with only the quota-size sentinel set to -1. -/
def vfEitherSentinel : VirtualFolder :=
  { name := "vf", QuotaSize := -1, QuotaFiles := 0 }

/-- A virtual folder with both sentinels set to -1. -/
def vfBothSentinels : VirtualFolder :=
  { name := "vf", QuotaSize := -1, QuotaFiles := -1 }

/-- An environment where every path lies in `vfEitherSentinel`. -/
def envVFEither : Env :=
  { envBase with getVirtualFolderForPath := fun _ => some vfEitherSentinel }

/-- An environment where every path lies in `vfBothSentinels`. -/
def envVFBoth : Env :=
  { envBase with getVirtualFolderForPath := fun _ => some vfBothSentinels }

/-- Backend-reported filesystem statistics used in the StatVFS scenarios. -/
def statsBig : StatVFSResult :=
  { Bsize := 4096, Frsize := 4096, Blocks := 1000000, Bfree := 500000,
    Bavail := 500000, Files := 100000, Ffree := 50000, Favail := 50000,
    Namemax := 255 }

/-- `fsPlain` with real backend disk statistics available. -/
def fsWithStats : Fs :=
  { fsPlain with getAvailableDiskSize := fun _ => .ok statsBig }

/-- An environment with exhausted quota and a backend reporting nonzero
free space. -/
def envStatNoSpace : Env :=
  { envBase with
    hasSpace := fun _ _ _ =>
      ({ HasSpace := false, QuotaSize := 1000, QuotaFiles := 10,
         UsedSize := 1000, UsedFiles := 10 },
       { hasUploadSpace := false, hasDownloadSpace := false })
    resolveFsPath := fun p => .ok (fsWithStats, p) }

/-- An environment with no quota restriction and a backend reporting real
statistics. -/
def envStatFree : Env :=
  { envBase with resolveFsPath := fun p => .ok (fsWithStats, p) }

/-- The heap backing the folder-copy scenario: the `Users` array and the
`Groups` array. -/
def heapC7 : Heap := { arrays := [["alice", "bob"], ["admins"]] }

/-- The folder of the folder-copy scenario. -/
def folderC7 : BaseVirtualFolder :=
  { ID := 1, Name := "f1", MappedPath := "/srv/f1", Description := "",
    UsedQuotaSize := 0, UsedQuotaFiles := 0, LastQuotaUpdate := 0,
    Users := { arr := 0, len := 2 }, Groups := { arr := 1, len := 1 },
    FsConfig := 0 }

/-- The transfer produced by a truncating overwrite of a 500-byte file on
a backend with native truncate support. -/
def trTruncNative : Transfer :=
  { direction := .upload, fsPath := "/home/user/f.txt",
    effectivePath := "/home/user/f.txt", requestPath := "/f.txt",
    minWriteOffset := 0, initialSize := 0, maxWriteSize := 1000000,
    truncatedSize := 0, isNewFile := false, errForRead := none }

/-- The trace of that truncating overwrite on `envVFBoth`. -/
def trTruncNativeTrace : List Event :=
  [Event.quotaCheck false, Event.preAction, Event.fsCreate,
   Event.updateVFolderQuota "vf" 0 (-500), Event.updateUserQuota 0 (-500),
   Event.setPathPerms]

/-- The filesystem statistics `StatVFS` synthesizes on `envStatNoSpace`:
quota exhausted, so the free counters are forced to zero. -/
def statVFSNoSpaceResult : StatVFSResult :=
  { Bsize := 256, Frsize := 256, Blocks := 3, Bfree := 0, Bavail := 0,
    Files := 10, Ffree := 0, Favail := 0, Namemax := 255 }

/-! ## Theorems -/

/-- `getOSOpenFlags` sets the `O_TRUNC` bit exactly when the caller's
truncate flag is set. -/
theorem getOSOpenFlags_trunc (f : FileOpenFlags) :
    (getOSOpenFlags f &&& O_TRUNC != 0) = f.Trunc := by
  rcases f with ⟨r, w, a, c, t, e⟩
  cases r <;> cases w <;> cases a <;> cases c <;> cases t <;> cases e <;> rfl

/-- Claim C1: for a write-open on an existing regular file, the upload
state machine selects Resume exactly when the truncate open flag is unset
(selecting Truncate when it is set, where the minimum write offset stays
zero); in every Resume case the transfer's initial size equals the existing
file size and nothing is truncated, and the minimum write offset equals the
existing file size exactly when the append flag is set or the backend lacks
native resume support, and zero otherwise. -/
theorem overwrite_resume_decision (env : Env) (fs : Fs) (pflags : FileOpenFlags)
    (resolvedPath filePath : String) (fileSize : Int) (requestPath : String)
    (errForRead : Option ReadErr) (t : Transfer)
    (h : (handleSFTPUploadToExistingFile env fs pflags resolvedPath filePath
      fileSize requestPath errForRead).1 = .ok t) :
    (pflags.Trunc = false →
      t.initialSize = fileSize ∧ t.truncatedSize = 0 ∧
      t.minWriteOffset =
        (if pflags.Append || !fs.isUploadResumeSupported then fileSize else 0)) ∧
    (pflags.Trunc = true → t.minWriteOffset = 0) := by
  simp only [handleSFTPUploadToExistingFile, getOSOpenFlags_trunc] at h
  split at h
  · simp at h
  · split at h
    · simp at h
    · split at h
      · simp at h
      · split at h
        · simp at h
        · split at h
          · simp at h
          · split at h
            · next hres =>
              rw [Bool.not_eq_true'] at hres
              simp only [Prod.fst] at h
              cases h
              refine ⟨fun _ => ⟨rfl, rfl, rfl⟩, fun hT => ?_⟩
              rw [hT] at hres
              cases hres
            · next hres =>
              have hT : pflags.Trunc = true := by
                revert hres
                cases pflags.Trunc <;> simp
              split at h
              · simp only [Prod.fst] at h
                cases h
                exact ⟨fun hF => by simp [hF] at hT, fun _ => rfl⟩
              · simp only [Prod.fst] at h
                cases h
                exact ⟨fun hF => by simp [hF] at hT, fun _ => rfl⟩

/-- Witness for C1: resuming a 500-byte file with append set on a backend
without native resume yields minimum write offset 500 and initial size
500. -/
theorem overwrite_resume_decision_witness :
    (pflagsAppendNoTrunc.Trunc = false →
      trResume500.initialSize = 500 ∧ trResume500.truncatedSize = 0 ∧
      trResume500.minWriteOffset =
        (if pflagsAppendNoTrunc.Append || !fsPlain.isUploadResumeSupported
         then (500 : Int) else 0)) ∧
    (pflagsAppendNoTrunc.Trunc = true → trResume500.minWriteOffset = 0) :=
  overwrite_resume_decision envBase fsPlain pflagsAppendNoTrunc
    "/home/user/f.txt" "/home/user/f.txt" 500 "/f.txt" none trResume500 (by rfl)

/-- Claim C2 counterexample: a path denied by the allow/deny policy with a
non-hide policy does not make readlink return permission-denied -- the
policy check in `canReadLink` passes any non-hide denial, and the readlink
call proceeds and succeeds. -/
theorem readlink_deny_policy_counterexample :
    envDenyDefault.isFileAllowed "/secret.txt" = (false, DenyPolicy.default) ∧
    (Readlink envDenyDefault "/secret.txt").1 = .ok "/target.txt" :=
  ⟨rfl, rfl⟩

/-- Claim C2 (amended): for a path failing the allow/deny policy with the
"hide" policy, read-open and readlink both return not-found, never
permission-denied; for a path failing with any other deny policy, read-open
returns permission-denied, while readlink's policy check passes the path
(only hide-denials are reported by `canReadLink`). -/
theorem read_open_readlink_deny_policy (env : Env) (p : String)
    (fl : FileOpenFlags)
    (hdl : env.hasPerm .download (pathDir p) = true)
    (hq : env.getTransferQuota.hasDownloadSpace = true)
    (hli : env.hasPerm .listItems (pathDir p) = true) :
    (env.isFileAllowed p = (false, .hide) →
      (Fileread env { Filepath := p, pflags := fl }).1 = .error .noSuchFile ∧
      (Readlink env p).1 = .error .noSuchFile) ∧
    (env.isFileAllowed p = (false, .default) →
      (Fileread env { Filepath := p, pflags := fl }).1 = .error .permissionDenied ∧
      (canReadLink env p).1 = none) := by
  constructor
  · intro hal
    constructor
    · simp [Fileread, FilereadBody, withActivity, hdl, hq, hal, GetErrorForDeniedFile]
    · simp [Readlink, canReadLink, hli, hal]
  · intro hal
    constructor
    · simp [Fileread, FilereadBody, withActivity, hdl, hq, hal, GetErrorForDeniedFile]
    · simp [canReadLink, hli, hal]

/-- Witness for C2's amended theorem, at a hide-denied and a
default-denied path. -/
theorem read_open_readlink_deny_policy_witness :
    ((Fileread envDenyHide { Filepath := "/s.txt", pflags := pflagsTrunc }).1 =
        .error .noSuchFile ∧
      (Readlink envDenyHide "/s.txt").1 = .error .noSuchFile) ∧
    ((Fileread envDenyDefault { Filepath := "/s.txt", pflags := pflagsTrunc }).1 =
        .error .permissionDenied ∧
      (canReadLink envDenyDefault "/s.txt").1 = none) :=
  ⟨(read_open_readlink_deny_policy envDenyHide "/s.txt" pflagsTrunc
      rfl rfl rfl).1 rfl,
   (read_open_readlink_deny_policy envDenyDefault "/s.txt" pflagsTrunc
      rfl rfl rfl).2 rfl⟩

/-- Claim C3: on the create-new-file upload path, the quota check with
isNewFile=true is the first observable call -- in particular it precedes
any backend open/create call -- and if either the disk quota or the
transfer quota denies, the operation returns the quota-exceeded error with
zero backend calls having occurred. -/
theorem new_file_quota_gate (env : Env) (fs : Fs) (pflags : FileOpenFlags)
    (resolvedPath filePath requestPath : String) (errForRead : Option ReadErr) :
    ((handleSFTPUploadToNewFile env fs pflags resolvedPath filePath requestPath
        errForRead).2.head? = some (Event.quotaCheck true)) ∧
    ((env.hasSpace true false requestPath).1.HasSpace = false ∨
        (env.hasSpace true false requestPath).2.hasUploadSpace = false →
      (handleSFTPUploadToNewFile env fs pflags resolvedPath filePath requestPath
          errForRead).1 = .error .quotaExceeded ∧
      ((handleSFTPUploadToNewFile env fs pflags resolvedPath filePath requestPath
          errForRead).2.countP Event.isBackendCall) = 0) := by
  constructor
  · simp only [handleSFTPUploadToNewFile]
    split
    · rfl
    · split
      · rfl
      · split
        · rfl
        · rfl
  · intro hden
    have hcond : (!(env.hasSpace true false requestPath).1.HasSpace
        || !(env.hasSpace true false requestPath).2.hasUploadSpace) = true := by
      rcases hden with h | h <;> simp [h]
    constructor
    · simp [handleSFTPUploadToNewFile, hcond]
    · simp [handleSFTPUploadToNewFile, hcond, Event.isBackendCall]

/-- Witness for C3: with the disk quota denying, the create-new-file path
returns quota-exceeded and performs no backend call. -/
theorem new_file_quota_gate_witness :
    ((handleSFTPUploadToNewFile envNoSpace fsPlain pflagsTrunc "/home/user/g.txt"
        "/home/user/g.txt" "/g.txt" none).2.head? =
      some (Event.quotaCheck true)) ∧
    ((handleSFTPUploadToNewFile envNoSpace fsPlain pflagsTrunc "/home/user/g.txt"
        "/home/user/g.txt" "/g.txt" none).1 = .error .quotaExceeded ∧
      ((handleSFTPUploadToNewFile envNoSpace fsPlain pflagsTrunc "/home/user/g.txt"
          "/home/user/g.txt" "/g.txt" none).2.countP Event.isBackendCall) = 0) :=
  ⟨(new_file_quota_gate envNoSpace fsPlain pflagsTrunc "/home/user/g.txt"
      "/home/user/g.txt" "/g.txt" none).1,
   (new_file_quota_gate envNoSpace fsPlain pflagsTrunc "/home/user/g.txt"
      "/home/user/g.txt" "/g.txt" none).2 (Or.inl rfl)⟩

/-- The create-new-file path hands the deferred read error through to the
transfer unchanged. -/
theorem uploadToNewFile_errForRead (env : Env) (fs : Fs) (pflags : FileOpenFlags)
    (rp fp reqPath : String) (efr : Option ReadErr) (t : Transfer)
    (h : (handleSFTPUploadToNewFile env fs pflags rp fp reqPath efr).1 = .ok t) :
    t.errForRead = efr := by
  simp only [handleSFTPUploadToNewFile] at h
  split at h
  · simp at h
  · split at h
    · simp at h
    · split at h
      · simp at h
      · simp only [Prod.fst] at h
        cases h
        rfl

/-- The overwrite-existing path hands the deferred read error through to
the transfer unchanged. -/
theorem uploadToExistingFile_errForRead (env : Env) (fs : Fs)
    (pflags : FileOpenFlags) (rp fp : String) (fileSize : Int)
    (reqPath : String) (efr : Option ReadErr) (t : Transfer)
    (h : (handleSFTPUploadToExistingFile env fs pflags rp fp fileSize reqPath
      efr).1 = .ok t) : t.errForRead = efr := by
  simp only [handleSFTPUploadToExistingFile] at h
  split at h
  · simp at h
  · split at h
    · simp at h
    · split at h
      · simp at h
      · split at h
        · simp at h
        · split at h
          · simp at h
          · split at h
            · simp only [Prod.fst] at h
              cases h
              rfl
            · split at h
              · simp only [Prod.fst] at h
                cases h
                rfl
              · simp only [Prod.fst] at h
                cases h
                rfl

/-- Claim C10: in write-open, when the user lacks download permission on
the parent of the request path, a transfer returned by the handler carries
a deferred permission read error -- regardless of whether the client
requested read access, and overwriting any previously recorded
unsupported-operation read error (`computeErrForRead` yields the permission
error for every backend and read-flag value once download permission is
missing); the request itself is not rejected for this reason. -/
theorem write_open_deferred_read_error (env : Env) (r : Request) (t : Transfer)
    (hdl : env.hasPerm .download (pathDir r.Filepath) = false)
    (h : (handleFilewrite env r).1 = .ok t) :
    t.errForRead = some .permission ∧
    (∀ fs rd, computeErrForRead fs rd false = some ReadErr.permission) := by
  refine ⟨?_, fun fs rd => rfl⟩
  simp only [handleFilewrite, withActivity, handleFilewriteBody, hdl] at h
  split at h
  · simp at h
  · split at h
    · simp at h
    · split at h
      · split at h
        · split at h
          · simp at h
          · simp only [Prod.fst] at h
            exact uploadToNewFile_errForRead _ _ _ _ _ _ _ _ h
        · split at h
          · simp at h
          · split at h
            · simp at h
            · simp only [Prod.fst] at h
              exact uploadToExistingFile_errForRead _ _ _ _ _ _ _ _ _ h
      · split at h
        · simp at h
        · simp only [Prod.fst] at h
          exact uploadToNewFile_errForRead _ _ _ _ _ _ _ _ h
      · simp at h

/-- Witness for C10: overwriting an existing file without download
permission yields a transfer whose deferred read error is the permission
error. -/
theorem write_open_deferred_read_error_witness :
    (handleFilewrite envNoDownloadPerm
        { Filepath := "/f.txt", pflags := pflagsTrunc }).1 =
      .ok { direction := .upload, fsPath := "/home/user/f.txt",
            effectivePath := "/home/user/f.txt", requestPath := "/f.txt",
            minWriteOffset := 0, initialSize := 0, maxWriteSize := 1000000,
            truncatedSize := 0, isNewFile := false,
            errForRead := some .permission } ∧
    ({ direction := .upload, fsPath := "/home/user/f.txt",
       effectivePath := "/home/user/f.txt", requestPath := "/f.txt",
       minWriteOffset := 0, initialSize := 0, maxWriteSize := 1000000,
       truncatedSize := 0, isNewFile := false,
       errForRead := some .permission } : Transfer).errForRead =
      some ReadErr.permission :=
  ⟨rfl,
   (write_open_deferred_read_error envNoDownloadPerm
      { Filepath := "/f.txt", pflags := pflagsTrunc }
      { direction := .upload, fsPath := "/home/user/f.txt",
        effectivePath := "/home/user/f.txt", requestPath := "/f.txt",
        minWriteOffset := 0, initialSize := 0, maxWriteSize := 1000000,
        truncatedSize := 0, isNewFile := false,
        errForRead := some .permission } rfl rfl).1⟩

/-- The truncation quota updates consist only of quota-update events. -/
theorem filter_updateQuotaAfterTruncate (env : Env) (reqPath : String) (S : Int) :
    (updateQuotaAfterTruncate env reqPath S).filter Event.isQuotaUpdate =
      updateQuotaAfterTruncate env reqPath S := by
  unfold updateQuotaAfterTruncate
  split
  · split <;> simp [Event.isQuotaUpdate]
  · simp [Event.isQuotaUpdate]

/-- Claim C4: for a truncating overwrite of an existing file of prior size
S, when the backend lacks native truncate-on-open support the returned
transfer has truncated-size = S and initial-size = S and no quota update is
issued; when the backend supports it, the transfer's truncated-size and
initial-size are both zero and the quota updates issued are exactly those
of `updateQuotaAfterTruncate`: a debit of -S to the covering virtual folder,
plus the same debit to the owning user when the folder is included in the
user quota, or a debit of -S to the user alone when no virtual folder
covers the path. -/
theorem truncate_quota_reconciliation (env : Env) (fs : Fs)
    (pflags : FileOpenFlags) (rp fp : String) (S : Int) (reqPath : String)
    (efr : Option ReadErr) (t : Transfer) (tr : List Event)
    (hT : pflags.Trunc = true)
    (h : handleSFTPUploadToExistingFile env fs pflags rp fp S reqPath efr =
      (.ok t, tr)) :
    (fs.hasTruncateSupport = false →
      t.truncatedSize = S ∧ t.initialSize = S ∧
      tr.filter Event.isQuotaUpdate = []) ∧
    (fs.hasTruncateSupport = true →
      t.truncatedSize = 0 ∧ t.initialSize = 0 ∧
      tr.filter Event.isQuotaUpdate = updateQuotaAfterTruncate env reqPath S) ∧
    (∀ vf, env.getVirtualFolderForPath (pathDir reqPath) = some vf →
      updateQuotaAfterTruncate env reqPath S =
        Event.updateVFolderQuota vf.name 0 (-S) ::
          (if vf.IsIncludedInUserQuota then [Event.updateUserQuota 0 (-S)]
           else [])) ∧
    (env.getVirtualFolderForPath (pathDir reqPath) = none →
      updateQuotaAfterTruncate env reqPath S = [Event.updateUserQuota 0 (-S)]) := by
  have hTt : (getOSOpenFlags pflags &&& O_TRUNC != 0) = true := by
    rw [getOSOpenFlags_trunc]
    exact hT
  have key : (fs.hasTruncateSupport = true ∧ t.truncatedSize = 0 ∧
        t.initialSize = 0 ∧
        tr.filter Event.isQuotaUpdate = updateQuotaAfterTruncate env reqPath S) ∨
      (fs.hasTruncateSupport = false ∧ t.truncatedSize = S ∧ t.initialSize = S ∧
        tr.filter Event.isQuotaUpdate = []) := by
    simp only [handleSFTPUploadToExistingFile, hTt, Bool.not_true] at h
    split at h
    · simp at h
    · split at h
      · simp at h
      · split at h
        · simp at h
        · split at h
          · simp at h
          · split at h
            · simp at h
            · split at h
              · next hres =>
                simp at hres
              · split at h
                · next hsup =>
                  rw [Prod.mk.injEq, Except.ok.injEq] at h
                  obtain ⟨rfl, rfl⟩ := h
                  rw [Bool.true_and] at hsup
                  refine Or.inl ⟨hsup, rfl, rfl, ?_⟩
                  cases hA : env.atomicUploadEnabled && fs.isAtomicUploadSupported <;>
                    simp [hA, Event.isQuotaUpdate, filter_updateQuotaAfterTruncate]
                · next hsup =>
                  rw [Prod.mk.injEq, Except.ok.injEq] at h
                  obtain ⟨rfl, rfl⟩ := h
                  have hsup' : fs.hasTruncateSupport = false := by
                    revert hsup
                    cases fs.hasTruncateSupport <;> simp
                  refine Or.inr ⟨hsup', rfl, rfl, ?_⟩
                  cases hA : env.atomicUploadEnabled && fs.isAtomicUploadSupported <;>
                    simp [hA, Event.isQuotaUpdate]
  refine ⟨?_, ?_, ?_, ?_⟩
  · intro hF
    rcases key with ⟨hs, k⟩ | ⟨_, k⟩
    · rw [hF] at hs
      cases hs
    · exact k
  · intro hs
    rcases key with ⟨_, k⟩ | ⟨hF, k⟩
    · exact k
    · rw [hs] at hF
      cases hF
  · intro vf hvf
    simp [updateQuotaAfterTruncate, hvf]
  · intro hvf
    simp [updateQuotaAfterTruncate, hvf]

/-- Witness for C4: a truncating overwrite of a 500-byte file on a backend
with native truncate support, where the path lies in a virtual folder
included in the user quota. -/
theorem truncate_quota_reconciliation_witness :
    (fsPlain.hasTruncateSupport = true →
      trTruncNative.truncatedSize = 0 ∧ trTruncNative.initialSize = 0 ∧
      trTruncNativeTrace.filter Event.isQuotaUpdate =
        updateQuotaAfterTruncate envVFBoth "/f.txt" 500) ∧
    updateQuotaAfterTruncate envVFBoth "/f.txt" 500 =
      [Event.updateVFolderQuota "vf" 0 (-500), Event.updateUserQuota 0 (-500)] :=
  ⟨(truncate_quota_reconciliation envVFBoth fsPlain pflagsTrunc
      "/home/user/f.txt" "/home/user/f.txt" 500 "/f.txt" none trTruncNative
      trTruncNativeTrace rfl rfl).2.1,
   by
    have := (truncate_quota_reconciliation envVFBoth fsPlain pflagsTrunc
      "/home/user/f.txt" "/home/user/f.txt" 500 "/f.txt" none trTruncNative
      trTruncNativeTrace rfl rfl).2.2.1 vfBothSentinels rfl
    simpa using this⟩

/-- `capQuotaByDiskStats` never changes the has-space verdict. -/
theorem capQuota_HasSpace (q : QuotaCheckResult) (s : StatVFSResult) :
    (capQuotaByDiskStats q s).HasSpace = q.HasSpace := rfl

/-- When the quota check reported no remaining space, the synthesized
statistics carry zero free blocks and zero free files. -/
theorem synthesizeStatVFS_noSpace (q : QuotaCheckResult)
    (h : q.HasSpace = false) :
    (synthesizeStatVFS q).Bfree = 0 ∧ (synthesizeStatVFS q).Bavail = 0 ∧
    (synthesizeStatVFS q).Ffree = 0 ∧ (synthesizeStatVFS q).Favail = 0 := by
  unfold synthesizeStatVFS
  simp [apply_ite QuotaCheckResult.HasSpace, h]

/-- Claim C5: in the filesystem-stat response, whenever the quota check
reports no remaining space, the returned free-block and free-file counts
(and their avail twins) are zero regardless of backend-reported free space;
and whenever no quota restriction is configured (both ceilings zero, hence
a quota check with space) and the backend reports real statistics, the
backend statistics are returned unchanged. -/
theorem statvfs_quota_synthesis (env : Env) (p : String) :
    (∀ s, (env.hasSpace true true (pathJoin p "fakefile.txt")).1.HasSpace = false →
      (StatVFS env p).1 = .ok s →
      s.Bfree = 0 ∧ s.Bavail = 0 ∧ s.Ffree = 0 ∧ s.Favail = 0) ∧
    (∀ fs pp st,
      (env.hasSpace true true (pathJoin p "fakefile.txt")).1.HasSpace = true →
      (env.hasSpace true true (pathJoin p "fakefile.txt")).1.QuotaSize = 0 →
      (env.hasSpace true true (pathJoin p "fakefile.txt")).1.QuotaFiles = 0 →
      env.resolveFsPath p = .ok (fs, pp) →
      fs.getAvailableDiskSize pp = .ok st →
      (StatVFS env p).1 = .ok st) := by
  constructor
  · intro s hns hok
    simp only [StatVFS, withActivity, StatVFSBody, hns, Bool.not_false,
      if_true] at hok
    split at hok
    · simp at hok
    · simp only [getStatVFSFromQuotaResult] at hok
      split at hok
      · simp at hok
      · simp only [Prod.fst, Except.ok.injEq] at hok
        subst hok
        exact synthesizeStatVFS_noSpace _
          (by rw [capQuota_HasSpace]; exact hns)
      · simp only [Prod.fst, Except.ok.injEq] at hok
        subst hok
        exact synthesizeStatVFS_noSpace _ hns
  · intro fs pp st hhs hqs hqf hres hdisk
    simp [StatVFS, withActivity, StatVFSBody, hhs, hqs, hqf, hres, hdisk]

/-- Witness for C5: exhausted quota forces zero free counters even with
backend-reported free space; no quota restriction returns the backend
statistics unchanged. -/
theorem statvfs_quota_synthesis_witness :
    (statVFSNoSpaceResult.Bfree = 0 ∧ statVFSNoSpaceResult.Bavail = 0 ∧
      statVFSNoSpaceResult.Ffree = 0 ∧ statVFSNoSpaceResult.Favail = 0) ∧
    (StatVFS envStatFree "/dir").1 = .ok statsBig :=
  ⟨(statvfs_quota_synthesis envStatNoSpace "/dir").1 statVFSNoSpaceResult
      rfl rfl,
   (statvfs_quota_synthesis envStatFree "/dir").2 fsWithStats "/dir" statsBig
      rfl rfl rfl rfl rfl⟩

/-- Claim C6: a directory listing always gets a synthetic `.` entry
prepended first, and a synthetic `..` entry is also prepended exactly when
the requested path is not the session root "/" or the session has a
non-empty folder-scope prefix. -/
theorem filelist_dot_entries (env : Env) (p : String) (files : List FileInfo)
    (h : env.listDir p = .ok files) :
    (Filelist env .List p).1 =
      .ok (newFileInfo "." true 0 ::
        (if p != "/" || env.folderPrefix != ""
         then newFileInfo ".." true 0 :: files else files)) := by
  simp only [Filelist, withActivity, FilelistBody, h, prependFileInfo]

/-- Witness for C6: listing the root of an unscoped session yields `.`
only; listing a non-root path yields `.` then `..`. -/
theorem filelist_dot_entries_witness :
    (Filelist envBase .List "/").1 = .ok [newFileInfo "." true 0] ∧
    (Filelist envBase .List "/sub").1 =
      .ok [newFileInfo "." true 0, newFileInfo ".." true 0] := by
  have h1 := filelist_dot_entries envBase "/" [] rfl
  have h2 := filelist_dot_entries envBase "/sub" [] rfl
  rw [h1, h2]
  exact ⟨rfl, rfl⟩

/-- Claim C7: the claim is right and the code is wrong -- `GetACopy`
allocates a fresh copy of the `Users` list but assigns the ORIGINAL
`Groups` slice to the copy (the freshly made `groups` array is dead), so
writing through the copy's `Groups` mutates the original folder's list. -/
theorem folder_copy_groups_alias :
    ((BaseVirtualFolder.GetACopy heapC7 folderC7).2.Users ≠ folderC7.Users ∧
      Heap.read (Heap.write (BaseVirtualFolder.GetACopy heapC7 folderC7).1
          (BaseVirtualFolder.GetACopy heapC7 folderC7).2.Users 0 "evil")
        folderC7.Users = ["alice", "bob"]) ∧
    ((BaseVirtualFolder.GetACopy heapC7 folderC7).2.Groups = folderC7.Groups ∧
      Heap.read (BaseVirtualFolder.GetACopy heapC7 folderC7).1 folderC7.Groups =
        ["admins"] ∧
      Heap.read (Heap.write (BaseVirtualFolder.GetACopy heapC7 folderC7).1
          (BaseVirtualFolder.GetACopy heapC7 folderC7).2.Groups 0 "evil")
        folderC7.Groups = ["evil"]) := by
  refine ⟨⟨?_, ?_⟩, ?_, ?_, ?_⟩ <;> decide

/-- Claim C8 counterexample: a virtual folder with only its quota-size
sentinel at -1 is NOT included in the user quota, and the truncation debit
for a path inside it debits only the folder, never the owning user. -/
theorem included_in_user_quota_counterexample :
    vfEitherSentinel.QuotaSize = -1 ∧
    vfEitherSentinel.IsIncludedInUserQuota = false ∧
    updateQuotaAfterTruncate envVFEither "/vdir/f.txt" 100 =
      [Event.updateVFolderQuota "vf" 0 (-100)] ∧
    Event.updateUserQuota 0 (-100) ∉
      updateQuotaAfterTruncate envVFEither "/vdir/f.txt" 100 := by
  refine ⟨rfl, rfl, rfl, ?_⟩
  decide

/-- Claim C8 (amended): a virtual folder is included in the user quota
exactly when BOTH its per-association quota-size and quota-file sentinels
are -1; the truncation debit always debits the covering virtual folder, and
additionally debits the owning user exactly when both sentinels are -1. -/
theorem included_in_user_quota_sentinels (env : Env) (reqPath : String)
    (S : Int) (vf : VirtualFolder)
    (hvf : env.getVirtualFolderForPath (pathDir reqPath) = some vf) :
    (vf.IsIncludedInUserQuota = true ↔
      vf.QuotaFiles = -1 ∧ vf.QuotaSize = -1) ∧
    Event.updateVFolderQuota vf.name 0 (-S) ∈
      updateQuotaAfterTruncate env reqPath S ∧
    (Event.updateUserQuota 0 (-S) ∈ updateQuotaAfterTruncate env reqPath S ↔
      vf.QuotaFiles = -1 ∧ vf.QuotaSize = -1) := by
  refine ⟨?_, ?_, ?_⟩
  · simp [VirtualFolder.IsIncludedInUserQuota]
  · simp [updateQuotaAfterTruncate, hvf]
  · rw [show (vf.QuotaFiles = -1 ∧ vf.QuotaSize = -1) ↔
        vf.IsIncludedInUserQuota = true by
      simp [VirtualFolder.IsIncludedInUserQuota]]
    cases hI : vf.IsIncludedInUserQuota <;>
      simp [updateQuotaAfterTruncate, hvf, hI]

/-- Witness for C8's amended theorem, at a folder with both sentinels -1. -/
theorem included_in_user_quota_sentinels_witness :
    (vfBothSentinels.IsIncludedInUserQuota = true ↔
      vfBothSentinels.QuotaFiles = -1 ∧ vfBothSentinels.QuotaSize = -1) ∧
    Event.updateVFolderQuota vfBothSentinels.name 0 (-(25 : Int)) ∈
      updateQuotaAfterTruncate envVFBoth "/vdir/f.txt" 25 ∧
    (Event.updateUserQuota 0 (-(25 : Int)) ∈
        updateQuotaAfterTruncate envVFBoth "/vdir/f.txt" 25 ↔
      vfBothSentinels.QuotaFiles = -1 ∧ vfBothSentinels.QuotaSize = -1) :=
  included_in_user_quota_sentinels envVFBoth "/vdir/f.txt" 25 vfBothSentinels rfl

/-- The trace of `canReadLink` is the permission check, possibly followed
by the policy check. -/
theorem canReadLink_trace (env : Env) (n : String) :
    (canReadLink env n).2 = [Event.permCheck] ∨
    (canReadLink env n).2 = [Event.permCheck, Event.fileAllowedCheck] := by
  unfold canReadLink
  split
  · exact Or.inl rfl
  · exact Or.inr (by simp [apply_ite Prod.snd])

/-- `Readlink` never updates the last-activity timestamp. -/
theorem readlink_no_activity (env : Env) (q : String) :
    Event.updateLastActivity ∉ (Readlink env q).2 := by
  have h1 := canReadLink_trace env q
  unfold Readlink
  rcases hc : canReadLink env q with ⟨r, ev⟩
  rw [hc] at h1
  simp only at h1
  cases r
  case mk.none =>
    cases hr : env.resolveFsPath q with
    | error e =>
      rcases h1 with h | h <;> simp [hr, h]
    | ok fp =>
      obtain ⟨fs, p⟩ := fp
      cases hl : fs.readlink p with
      | error u =>
        rcases h1 with h | h <;> simp [hr, hl, h]
      | ok s =>
        have h2 := canReadLink_trace env s
        rcases hc2 : canReadLink env s with ⟨r2, ev2⟩
        rw [hc2] at h2
        simp only at h2
        cases r2 <;>
          · rcases h1 with h | h <;> rcases h2 with h2 | h2 <;>
              simp [hr, hl, hc2, h, h2]
  case mk.some e =>
    rcases h1 with h | h <;> simp [h]

/-- `RealPath` never updates the last-activity timestamp. -/
theorem realpath_no_activity (env : Env) (s : String) :
    Event.updateLastActivity ∉ (RealPath env s).2 := by
  unfold RealPath
  split
  · simp
  · split
    · cases hr : env.resolveFsPath (env.cleanPath s) with
      | error e => simp [hr]
      | ok fp =>
        obtain ⟨fs, fsPath⟩ := fp
        cases hre : fs.realPath with
        | some realPather =>
          cases hro : realPather fsPath <;> simp [hr, hre, hro]
        | none => simp [hr, hre]
    · cases hr : env.resolveFsPath (env.cleanPathWithBase env.startDirectory s) with
      | error e => simp [hr]
      | ok fp =>
        obtain ⟨fs, fsPath⟩ := fp
        cases hre : fs.realPath with
        | some realPather =>
          cases hro : realPather fsPath <;> simp [hr, hre, hro]
        | none => simp [hr, hre]

/-- Claim C9 counterexample: at a concrete connection and path, `Readlink`
and `RealPath` perform permission checks yet never update the last-activity
timestamp, so the update cannot precede those checks. -/
theorem activity_update_counterexample :
    Event.updateLastActivity ∉ (Readlink envBase "/link.txt").2 ∧
    Event.permCheck ∈ (Readlink envBase "/link.txt").2 ∧
    Event.updateLastActivity ∉ (RealPath envBase "/p").2 ∧
    Event.permCheck ∈ (RealPath envBase "/p").2 := by
  refine ⟨?_, ?_, ?_, ?_⟩ <;> decide

/-- Claim C9 (amended): the dispatcher handlers for read-open, write-open,
file-command, file-list, lstat and stat-filesystem perform the last-activity
update as their first observable step, before any permission check, path
resolution or backend call; the readlink and real-path handlers, however,
never update the last-activity timestamp at all. -/
theorem activity_update_first (env : Env) (r : Request) (m : CmdMethod)
    (lm : ListMethod) (p1 p2 p3 p4 p5 : String) :
    (Fileread env r).2.head? = some Event.updateLastActivity ∧
    (handleFilewrite env r).2.head? = some Event.updateLastActivity ∧
    (Filecmd env m p1).2.head? = some Event.updateLastActivity ∧
    (Filelist env lm p2).2.head? = some Event.updateLastActivity ∧
    (Lstat env p3).2.head? = some Event.updateLastActivity ∧
    (StatVFS env p4).2.head? = some Event.updateLastActivity ∧
    Event.updateLastActivity ∉ (Readlink env p5).2 ∧
    Event.updateLastActivity ∉ (RealPath env p5).2 :=
  ⟨rfl, rfl, rfl, rfl, rfl, rfl, readlink_no_activity env p5,
   realpath_no_activity env p5⟩

end Sftpgo

